import Mathlib

/-!
Shallow embedding of the Sequence Validation Engine of
`src/sequencer.py` (class `Sequencer`), together with theorems checking
the natural-language specification against it.

Modelling conventions:
* Python ints are `Int` (bounding-box coordinates come from
  `.astype(int)`), indices into the tracking list are `Nat`.
* Python `float` timestamps are modelled as `Int` time units: the
  engine only ever subtracts two timestamps and compares the difference
  with the constant `VALIDATION_DISPLAY_DURATION`, so any linearly
  ordered time base models the ordering facts the claims are about.
* Python `set[str]` values are `List String` used up to membership
  (built with `List.dedup`, so they contain no duplicates); the
  unspecified iteration order of a Python set is resolved to the list
  order, and invariant theorems are proved for the fold over the list.
* The external detector (YOLO) is an external collaborator: a frame is
  modelled by the list of detections it yields, each a label with an
  `xyxy` box, plus the frame height/width.
* The `time.time()` call inside `process_frame` (line 178 of the source)
  is modelled by the explicit `current_time` argument: it is the value
  the internal clock read returns during that call.
* An uncaught Python exception (an `IndexError` from `tracking_list[...]`)
  is modelled by `process_frame` returning `none`.
-/

namespace ImageMedkitSeq

/-- The five states of the state machine (source lines 10–15). -/
inductive SequenceState where
  | PREPARING
  | IDLE
  | TRACKING
  | VALIDATING
  | COMPLETED
deriving DecidableEq, Repr

/-- An axis-aligned box `(x1, y1, x2, y2)` in pixel coordinates. -/
abbrev Box := Int × Int × Int × Int

/-- One detection reported by the external detector: class label and box. -/
abbrev Detection := String × Box

/-- `Sequencer.VALIDATION_DISPLAY_DURATION = 3.0` (source line 18). -/
def VALIDATION_DISPLAY_DURATION : Int := 3

/-- The mutable state of a `Sequencer` object, plus the configuration
fields that the sequencing logic reads (`tracking_list`, `tolerance`).
The detector parameters (`model_path`, `conf`, `iou`, `imgsz`) are
forwarded opaquely to the external detector and never read by the logic;
`model_loaded` records whether the `YOLO(...)` call in `__init__`
succeeded (`self.model is not None`). -/
structure Sequencer where
  tracking_list : List String
  tolerance : Int
  model_loaded : Bool
  current_state : SequenceState
  expected_index : Nat
  classes_on_border_prev : List String
  classes_in_frame : List String
  message : String
  last_event_type : Option String
  validation_start_time : Int
deriving DecidableEq, Repr

/-- `Sequencer.__init__` (source lines 20–62): all state fields get their
initial values; `_transition_to(PREPARING)` is a no-op on the state since
the state already is `PREPARING`. -/
def Sequencer.init (tracking_list : List String) (tolerance : Int)
    (model_loaded : Bool) : Sequencer :=
  { tracking_list := tracking_list
    tolerance := tolerance
    model_loaded := model_loaded
    current_state := SequenceState.PREPARING
    expected_index := 0
    classes_on_border_prev := []
    classes_in_frame := []
    message := "Initializing..."
    last_event_type := none
    validation_start_time := 0 }

/-- `Sequencer._is_colliding_with_border` (source lines 107–135):
interior-exclusion guard, overlap guard, then edge-proximity test. -/
def is_colliding_with_border (tol : Int) (object_box border_box : Box) : Bool :=
  let (x1, y1, x2, y2) := object_box
  let (bx1, by1, bx2, by2) := border_box
  let completely_inside :=
    decide (x1 > bx1 + tol) && decide (x2 < bx2 - tol) &&
    decide (y1 > by1 + tol) && decide (y2 < by2 - tol)
  if completely_inside then false
  else
    let overlap_x := max 0 (min x2 bx2 - max x1 bx1)
    let overlap_y := max 0 (min y2 by2 - max y1 by1)
    let has_overlap := decide (overlap_x > 0) && decide (overlap_y > 0)
    if !has_overlap then false
    else
      let touch_left := decide ((Int.natAbs (x1 - bx1) : Int) ≤ tol)
      let touch_right := decide ((Int.natAbs (x2 - bx2) : Int) ≤ tol)
      let touch_top := decide ((Int.natAbs (y1 - by1) : Int) ≤ tol)
      let touch_bottom := decide ((Int.natAbs (y2 - by2) : Int) ≤ tol)
      touch_left || touch_right || touch_top || touch_bottom

/-- `Sequencer.reset_state` (source lines 137–144): manual reset. -/
def Sequencer.reset_state (s : Sequencer) : Sequencer :=
  { s with expected_index := 0
           classes_on_border_prev := []
           validation_start_time := 0
           last_event_type := some "Reset"
           current_state := SequenceState.PREPARING }

/-- The detection box (source lines 170–172): the frame inset by the
fixed `margin = 20`, as `(x1, y1, x2, y2)`. -/
def detect_box_xyxy (height width : Int) : Box :=
  (20, 20, width - 20, height - 20)

/-- `self.classes_in_frame` after the detection-analysis loop (source
lines 180–188): the set of all labels detected anywhere in the frame. -/
def detected_classes (dets : List Detection) : List String :=
  (dets.map Prod.fst).dedup

/-- `classes_on_border_curr` after the detection-analysis loop (source
lines 179–192): labels whose box collides with the detection box. -/
def classes_on_border_curr (tol : Int) (detect_box : Box)
    (dets : List Detection) : List String :=
  ((dets.filter (fun d => is_colliding_with_border tol d.2 detect_box)).map
    Prod.fst).dedup

/-- `new_crossings = classes_on_border_curr - classes_on_border_prev`
(source line 213). -/
def new_crossings (prev curr : List String) : List String :=
  curr.filter (fun c => decide (c ∉ prev))

/-- The body of the `for class_name in new_crossings` loop (source lines
215–243): classify one crossing event against the expected label. -/
def handle_crossing (current_time : Int) (s : Sequencer)
    (class_name : String) : Sequencer :=
  if h : s.expected_index < s.tracking_list.length then
    if class_name = s.tracking_list.get ⟨s.expected_index, h⟩ then
      if h2 : s.expected_index + 1 ≥ s.tracking_list.length then
        { s with expected_index := s.expected_index + 1
                 last_event_type := some "Correct"
                 current_state := SequenceState.COMPLETED }
      else
        { s with expected_index := s.expected_index + 1
                 last_event_type := some "Correct"
                 current_state :=
                   if s.current_state = SequenceState.IDLE then
                     SequenceState.TRACKING
                   else s.current_state
                 message := "✓ Correct: " ++ class_name ++ ". Next: " ++
                   s.tracking_list.get ⟨s.expected_index + 1, by omega⟩ }
    else
      { s with last_event_type := some "Wrong"
               validation_start_time := current_time
               message := "⚠ Warning: expected " ++
                 s.tracking_list.get ⟨s.expected_index, h⟩ ++ ", got " ++
                 class_name
               current_state := SequenceState.VALIDATING }
  else s

/-- The per-state dispatch of `process_frame` (source lines 194–243):
the `PREPARING` readiness gate, the `COMPLETED` auto-reset, and the
event-intake loop for the active states. `none` models the
`IndexError` raised by `self.tracking_list[0]` on line 203 when the
tracking list is empty. -/
def dispatch_state (s : Sequencer) (in_frame border_curr : List String)
    (current_time : Int) : Option Sequencer :=
  if s.current_state = SequenceState.PREPARING then
    let missing := s.tracking_list.dedup.filter (fun c => decide (c ∉ in_frame))
    if missing.isEmpty then
      match s.tracking_list with
      | [] => none
      | first :: _ =>
        some { s with current_state := SequenceState.IDLE
                      message := "Ready! Start with: " ++ first }
    else
      some { s with message := "Waiting for items: " ++
                      String.intercalate ", " missing }
  else if s.current_state = SequenceState.COMPLETED then
    some { s with current_state := SequenceState.PREPARING }
  else
    some ((new_crossings s.classes_on_border_prev border_curr).foldl
      (handle_crossing current_time) s)

/-- `Sequencer.get_display_message` (source lines 273–285). `none`
models the `IndexError` of `self.tracking_list[self.expected_index]` in
the `TRACKING` branch. -/
def get_display_message (s : Sequencer) : Option String :=
  match s.current_state with
  | SequenceState.PREPARING => some s.message
  | SequenceState.COMPLETED => some "✓ DONE! Put items back to reset."
  | SequenceState.VALIDATING => some s.message
  | SequenceState.TRACKING =>
    match s.tracking_list.get? s.expected_index with
    | none => none
    | some next =>
      some ("Progress: " ++ toString s.expected_index ++ "/" ++
        toString s.tracking_list.length ++ " | Next: " ++ next)
  | SequenceState.IDLE =>
    match s.tracking_list with
    | [] => some "Ready"
    | first :: _ => some ("Ready. Next: " ++ first)

/-- The tail of `process_frame` (source lines 245–258): the
`VALIDATING` timeout, the update of `classes_on_border_prev`, and the
display message. -/
def finish_frame (s : Sequencer) (border_curr : List String)
    (current_time : Int) : Option (Sequencer × String) :=
  let s1 :=
    if s.current_state = SequenceState.VALIDATING then
      if current_time - s.validation_start_time > VALIDATION_DISPLAY_DURATION then
        { s with current_state :=
            if s.expected_index > 0 then SequenceState.TRACKING
            else SequenceState.IDLE }
      else s
    else s
  let s2 := { s1 with classes_on_border_prev := border_curr }
  match get_display_message s2 with
  | none => none
  | some msg => some (s2, msg)

/-- `Sequencer.process_frame` (source lines 146–258). The frame is
modelled by the detection list the external detector yields for it plus
its height and width; `current_time` is the value returned by the
internal `time.time()` call on line 178. -/
def Sequencer.process_frame (s0 : Sequencer) (dets : List Detection)
    (height width : Int) (current_time : Int) : Option (Sequencer × String) :=
  let s := { s0 with last_event_type := none }
  if s.model_loaded = false then
    some (s, "Error: Model not loaded")
  else
    let in_frame := detected_classes dets
    let s := { s with classes_in_frame := in_frame }
    let border_curr :=
      classes_on_border_curr s.tolerance (detect_box_xyxy height width) dets
    match dispatch_state s in_frame border_curr current_time with
    | none => none
    | some s1 => finish_frame s1 border_curr current_time

/-- One per-frame input to the engine: the detections the external
detector yields, the frame dimensions, and the internal clock reading
during the call. -/
structure FrameInput where
  dets : List Detection
  height : Int
  width : Int
  time : Int
deriving DecidableEq, Repr

/-- Running the engine over a list of frames, stopping at a failure. -/
def run_frames : Sequencer → List FrameInput → Option Sequencer
  | s, [] => some s
  | s, f :: fs =>
    match s.process_frame f.dets f.height f.width f.time with
    | none => none
    | some p => run_frames p.1 fs

/-! ### Helper lemmas about the pieces of `process_frame` -/

theorem handle_crossing_tracking_list (t : Int) (s : Sequencer) (c : String) :
    (handle_crossing t s c).tracking_list = s.tracking_list := by
  unfold handle_crossing
  split
  · split
    · split <;> rfl
    · rfl
  · rfl

theorem handle_crossing_prev (t : Int) (s : Sequencer) (c : String) :
    (handle_crossing t s c).classes_on_border_prev =
      s.classes_on_border_prev := by
  unfold handle_crossing
  split
  · split
    · split <;> rfl
    · rfl
  · rfl

/-- Per-event case analysis: an event either leaves the index and event
type alone, or increments the index by one while classifying `Correct`
(possible only below the sequence length), or keeps the index while
classifying `Wrong`. -/
theorem handle_crossing_cases (t : Int) (s : Sequencer) (c : String) :
    ((handle_crossing t s c).expected_index = s.expected_index ∧
      (handle_crossing t s c).last_event_type = s.last_event_type ∨
     (handle_crossing t s c).expected_index = s.expected_index + 1 ∧
      s.expected_index < s.tracking_list.length ∧
      (handle_crossing t s c).last_event_type = some "Correct" ∨
     (handle_crossing t s c).expected_index = s.expected_index ∧
      (handle_crossing t s c).last_event_type = some "Wrong") := by
  unfold handle_crossing
  split
  · split
    · split
      · right; left; exact ⟨rfl, by assumption, rfl⟩
      · right; left; exact ⟨rfl, by assumption, rfl⟩
    · right; right; exact ⟨rfl, rfl⟩
  · left; exact ⟨rfl, rfl⟩

theorem foldl_handle_tracking_list (t : Int) (l : List String) (s : Sequencer) :
    (l.foldl (handle_crossing t) s).tracking_list = s.tracking_list := by
  induction l generalizing s with
  | nil => rfl
  | cons c cs ih =>
    simp only [List.foldl_cons]
    rw [ih, handle_crossing_tracking_list]

theorem foldl_handle_prev (t : Int) (l : List String) (s : Sequencer) :
    (l.foldl (handle_crossing t) s).classes_on_border_prev =
      s.classes_on_border_prev := by
  induction l generalizing s with
  | nil => rfl
  | cons c cs ih =>
    simp only [List.foldl_cons]
    rw [ih, handle_crossing_prev]

theorem foldl_handle_index_mono (t : Int) (l : List String) (s : Sequencer) :
    s.expected_index ≤ (l.foldl (handle_crossing t) s).expected_index := by
  induction l generalizing s with
  | nil => exact le_refl _
  | cons c cs ih =>
    simp only [List.foldl_cons]
    refine le_trans ?_ (ih (handle_crossing t s c))
    rcases handle_crossing_cases t s c with ⟨h, _⟩ | ⟨h, _, _⟩ | ⟨h, _⟩ <;> omega

theorem foldl_handle_index_le (t : Int) (l : List String) (s : Sequencer)
    (hle : s.expected_index ≤ s.tracking_list.length) :
    (l.foldl (handle_crossing t) s).expected_index ≤
      (l.foldl (handle_crossing t) s).tracking_list.length := by
  induction l generalizing s with
  | nil => exact hle
  | cons c cs ih =>
    simp only [List.foldl_cons]
    refine ih (handle_crossing t s c) ?_
    rw [handle_crossing_tracking_list]
    rcases handle_crossing_cases t s c with ⟨h, _⟩ | ⟨h, hlt, _⟩ | ⟨h, _⟩ <;> omega

/-- Along the event loop, the event type is either untouched or one of
the two classifications. -/
theorem foldl_handle_event (t : Int) (l : List String) (s : Sequencer) :
    (l.foldl (handle_crossing t) s).last_event_type = s.last_event_type ∨
    (l.foldl (handle_crossing t) s).last_event_type = some "Correct" ∨
    (l.foldl (handle_crossing t) s).last_event_type = some "Wrong" := by
  induction l generalizing s with
  | nil => left; rfl
  | cons c cs ih =>
    simp only [List.foldl_cons]
    rcases ih (handle_crossing t s c) with h | h | h
    · rw [h]
      rcases handle_crossing_cases t s c with ⟨_, h2⟩ | ⟨_, _, h2⟩ | ⟨_, h2⟩ <;>
        rw [h2] <;> simp
    · right; left; exact h
    · right; right; exact h

theorem new_crossings_eq_nil {prev curr : List String}
    (h : ∀ c ∈ curr, c ∈ prev) : new_crossings prev curr = [] := by
  unfold new_crossings
  rw [List.filter_eq_nil_iff]
  intro c hc
  simp [h c hc]

theorem mem_new_crossings {prev curr : List String} {c : String} :
    c ∈ new_crossings prev curr ↔ c ∈ curr ∧ c ∉ prev := by
  unfold new_crossings
  simp

theorem foldl_handle_tolerance (t : Int) (l : List String) (s : Sequencer) :
    (l.foldl (handle_crossing t) s).tolerance = s.tolerance := by
  induction l generalizing s with
  | nil => rfl
  | cons c cs ih =>
    simp only [List.foldl_cons]
    rw [ih]
    unfold handle_crossing
    split
    · split
      · split <;> rfl
      · rfl
    · rfl

theorem dispatch_state_fields {s s' : Sequencer}
    {in_frame border_curr : List String} {t : Int}
    (h : dispatch_state s in_frame border_curr t = some s') :
    s'.tracking_list = s.tracking_list ∧
      s'.classes_on_border_prev = s.classes_on_border_prev := by
  unfold dispatch_state at h
  simp only [] at h
  repeat' split at h
  all_goals first
    | exact Option.noConfusion h
    | (obtain rfl := Option.some.inj h;
       exact ⟨foldl_handle_tracking_list .., foldl_handle_prev ..⟩)
    | (obtain rfl := Option.some.inj h; exact ⟨rfl, rfl⟩)

theorem dispatch_state_index {s s' : Sequencer}
    {in_frame border_curr : List String} {t : Int}
    (h : dispatch_state s in_frame border_curr t = some s') :
    s.expected_index ≤ s'.expected_index ∧
      (s.expected_index ≤ s.tracking_list.length →
        s'.expected_index ≤ s'.tracking_list.length) := by
  unfold dispatch_state at h
  simp only [] at h
  repeat' split at h
  all_goals first
    | exact Option.noConfusion h
    | (obtain rfl := Option.some.inj h;
       exact ⟨foldl_handle_index_mono .., fun hle => foldl_handle_index_le _ _ _ hle⟩)
    | (obtain rfl := Option.some.inj h; exact ⟨le_refl _, fun hle => hle⟩)

theorem dispatch_state_event {s s' : Sequencer}
    {in_frame border_curr : List String} {t : Int}
    (h : dispatch_state s in_frame border_curr t = some s') :
    s'.last_event_type = s.last_event_type ∨
      s'.last_event_type = some "Correct" ∨
      s'.last_event_type = some "Wrong" := by
  unfold dispatch_state at h
  simp only [] at h
  repeat' split at h
  all_goals first
    | exact Option.noConfusion h
    | (obtain rfl := Option.some.inj h; exact foldl_handle_event ..)
    | (obtain rfl := Option.some.inj h; exact Or.inl rfl)

/-- When no label newly entered the border set, the dispatch step
classifies nothing: the event type, index and validation clock are
untouched. -/
theorem dispatch_state_no_new {s s' : Sequencer}
    {in_frame border_curr : List String} {t : Int}
    (h : dispatch_state s in_frame border_curr t = some s')
    (hnil : new_crossings s.classes_on_border_prev border_curr = []) :
    s'.last_event_type = s.last_event_type ∧
      s'.expected_index = s.expected_index ∧
      s'.validation_start_time = s.validation_start_time := by
  unfold dispatch_state at h
  simp only [] at h
  rw [hnil] at h
  repeat' split at h
  all_goals first
    | exact Option.noConfusion h
    | (obtain rfl := Option.some.inj h; exact ⟨rfl, rfl, rfl⟩)

theorem finish_frame_eq_some {s s' : Sequencer} {b : List String} {t : Int}
    {m : String} (h : finish_frame s b t = some (s', m)) :
    s'.expected_index = s.expected_index ∧
      s'.last_event_type = s.last_event_type ∧
      s'.tracking_list = s.tracking_list ∧
      s'.classes_on_border_prev = b ∧
      s'.validation_start_time = s.validation_start_time := by
  unfold finish_frame at h
  simp only [] at h
  repeat' split at h
  all_goals first
    | exact Option.noConfusion h
    | (obtain ⟨rfl, rfl⟩ := Prod.mk.inj (Option.some.inj h);
       exact ⟨rfl, rfl, rfl, rfl, rfl⟩)

/-- If the state before the tail of the frame is not `VALIDATING`, the
timeout logic leaves it alone. -/
theorem finish_frame_state_of_ne {s s' : Sequencer} {b : List String}
    {t : Int} {m : String} (hne : s.current_state ≠ SequenceState.VALIDATING)
    (h : finish_frame s b t = some (s', m)) :
    s'.current_state = s.current_state := by
  unfold finish_frame at h
  simp only [] at h
  rw [if_neg hne] at h
  repeat' split at h
  all_goals first
    | exact Option.noConfusion h
    | (obtain ⟨rfl, rfl⟩ := Prod.mk.inj (Option.some.inj h); rfl)

/-- `process_frame` when the model failed to load (source lines 149–150):
the event type is still cleared first, nothing else changes. -/
theorem process_frame_not_loaded {s0 : Sequencer} {dets : List Detection}
    {hgt wd : Int} {t : Int} (hm : s0.model_loaded = false) :
    s0.process_frame dets hgt wd t =
      some ({ s0 with last_event_type := none }, "Error: Model not loaded") := by
  unfold Sequencer.process_frame
  simp [hm]

/-- A successful `process_frame` with a loaded model factors through the
state dispatch and the frame tail. -/
theorem process_frame_eq_some {s0 s' : Sequencer} {dets : List Detection}
    {hgt wd : Int} {t : Int} {m : String} (hm : s0.model_loaded = true)
    (hp : s0.process_frame dets hgt wd t = some (s', m)) :
    ∃ s1, dispatch_state
        { s0 with last_event_type := none
                  classes_in_frame := detected_classes dets }
        (detected_classes dets)
        (classes_on_border_curr s0.tolerance (detect_box_xyxy hgt wd) dets) t =
          some s1 ∧
      finish_frame s1
        (classes_on_border_curr s0.tolerance (detect_box_xyxy hgt wd) dets) t =
          some (s', m) := by
  unfold Sequencer.process_frame at hp
  simp only [] at hp
  rw [if_neg (by simp [hm])] at hp
  split at hp
  · exact Option.noConfusion hp
  · next s1 heq => exact ⟨s1, heq, hp⟩

theorem process_frame_index {s s' : Sequencer} {dets : List Detection}
    {hgt wd t : Int} {m : String}
    (hp : s.process_frame dets hgt wd t = some (s', m)) :
    s.expected_index ≤ s'.expected_index ∧
      (s.expected_index ≤ s.tracking_list.length →
        s'.expected_index ≤ s'.tracking_list.length) := by
  by_cases hm : s.model_loaded = true
  · obtain ⟨s1, hd, hf⟩ := process_frame_eq_some hm hp
    have hdi := dispatch_state_index hd
    have hff := finish_frame_eq_some hf
    constructor
    · rw [hff.1]; exact hdi.1
    · intro hle
      rw [hff.1, hff.2.2.1]
      exact hdi.2 hle
  · simp only [Bool.not_eq_true] at hm
    rw [process_frame_not_loaded hm] at hp
    obtain ⟨rfl, rfl⟩ := Prod.mk.inj (Option.some.inj hp)
    exact ⟨le_refl _, fun h => h⟩

theorem run_frames_index : ∀ (fs : List FrameInput) (s s' : Sequencer),
    run_frames s fs = some s' →
    s.expected_index ≤ s'.expected_index ∧
      (s.expected_index ≤ s.tracking_list.length →
        s'.expected_index ≤ s'.tracking_list.length)
  | [], s, s', h => by
    obtain rfl := Option.some.inj h
    exact ⟨le_refl _, id⟩
  | f :: fs, s, s', h => by
    simp only [run_frames] at h
    cases hpf : s.process_frame f.dets f.height f.width f.time with
    | none => rw [hpf] at h; exact Option.noConfusion h
    | some p =>
      rw [hpf] at h
      obtain ⟨s1, m1⟩ := p
      have hstep := process_frame_index hpf
      have ih := run_frames_index fs s1 s' h
      exact ⟨le_trans hstep.1 ih.1, fun hle => ih.2 (hstep.2 hle)⟩

theorem process_frame_event {s s' : Sequencer} {dets : List Detection}
    {hgt wd t : Int} {m : String}
    (hp : s.process_frame dets hgt wd t = some (s', m)) :
    s'.last_event_type = none ∨ s'.last_event_type = some "Correct" ∨
      s'.last_event_type = some "Wrong" := by
  by_cases hm : s.model_loaded = true
  · obtain ⟨s1, hd, hf⟩ := process_frame_eq_some hm hp
    have hev := dispatch_state_event hd
    have hff := finish_frame_eq_some hf
    rw [hff.2.1]
    exact hev
  · simp only [Bool.not_eq_true] at hm
    rw [process_frame_not_loaded hm] at hp
    obtain ⟨rfl, rfl⟩ := Prod.mk.inj (Option.some.inj hp)
    left; rfl

theorem process_frame_prev {s s' : Sequencer} {dets : List Detection}
    {hgt wd t : Int} {m : String} (hm : s.model_loaded = true)
    (hp : s.process_frame dets hgt wd t = some (s', m)) :
    s'.classes_on_border_prev =
      classes_on_border_curr s.tolerance (detect_box_xyxy hgt wd) dets := by
  obtain ⟨s1, hd, hf⟩ := process_frame_eq_some hm hp
  exact (finish_frame_eq_some hf).2.2.2.1

theorem process_frame_debounce {s s' : Sequencer} {dets : List Detection}
    {hgt wd t : Int} {m : String}
    (hsub : ∀ x ∈ classes_on_border_curr s.tolerance (detect_box_xyxy hgt wd) dets,
      x ∈ s.classes_on_border_prev)
    (hp : s.process_frame dets hgt wd t = some (s', m)) :
    s'.last_event_type = none ∧ s'.expected_index = s.expected_index := by
  by_cases hm : s.model_loaded = true
  · obtain ⟨s1, hd, hf⟩ := process_frame_eq_some hm hp
    have hnil : new_crossings s.classes_on_border_prev
        (classes_on_border_curr s.tolerance (detect_box_xyxy hgt wd) dets) = [] :=
      new_crossings_eq_nil hsub
    have hno := dispatch_state_no_new hd hnil
    have hff := finish_frame_eq_some hf
    exact ⟨by rw [hff.2.1, hno.1], by rw [hff.1, hno.2.1]⟩
  · simp only [Bool.not_eq_true] at hm
    rw [process_frame_not_loaded hm] at hp
    obtain ⟨rfl, rfl⟩ := Prod.mk.inj (Option.some.inj hp)
    exact ⟨rfl, rfl⟩

theorem completed_to_preparing {s : Sequencer} {dets : List Detection}
    {hgt wd t : Int} (hm : s.model_loaded = true)
    (hst : s.current_state = SequenceState.COMPLETED) :
    (s.process_frame dets hgt wd t).map (fun p => p.1.current_state) =
      some SequenceState.PREPARING := by
  simp [Sequencer.process_frame, dispatch_state, finish_frame,
    get_display_message, hm, hst]

/-! ### Spec-side definitions for the refinement comparisons -/

/-- Spec §4.1, first guard, with the inequality strict as the code has
it: the object box lies inside the region with margin strictly greater
than `tol` on all four sides. -/
def inside_with_margin_gt (tol : Int) (object_box border_box : Box) : Prop :=
  object_box.1 > border_box.1 + tol ∧
  object_box.2.2.1 < border_box.2.2.1 - tol ∧
  object_box.2.1 > border_box.2.1 + tol ∧
  object_box.2.2.2 < border_box.2.2.2 - tol

/-- Spec §4.1, second guard: the boxes have positive overlap on both
axes. -/
def boxes_overlap (object_box border_box : Box) : Prop :=
  min object_box.2.2.1 border_box.2.2.1 > max object_box.1 border_box.1 ∧
  min object_box.2.2.2 border_box.2.2.2 > max object_box.2.1 border_box.2.1

/-- Spec §4.1, third test: the object box is within `tol` pixels of at
least one of the region's four edges (left/right on the x-axis,
top/bottom on the y-axis, each side compared to the matching edge). -/
def within_tolerance_of_edge (tol : Int) (object_box border_box : Box) : Prop :=
  (Int.natAbs (object_box.1 - border_box.1) : Int) ≤ tol ∨
  (Int.natAbs (object_box.2.2.1 - border_box.2.2.1) : Int) ≤ tol ∨
  (Int.natAbs (object_box.2.1 - border_box.2.1) : Int) ≤ tol ∨
  (Int.natAbs (object_box.2.2.2 - border_box.2.2.2) : Int) ≤ tol

/-- The construction contract as spec §4.4 and §7 word it (the
spec-side definition of the refinement comparison for session
construction): construction requires a non-empty tracking sequence and
produces no session on an empty one. The source constructor
`Sequencer.init` performs no such check. -/
def construct_session_spec (tracking_list : List String) (tolerance : Int)
    (model_loaded : Bool) : Option Sequencer :=
  if tracking_list = [] then none
  else some (Sequencer.init tracking_list tolerance model_loaded)

/-! ### The claims -/

/-- C1: over any sequence of `process_frame` calls, `expected_index`
stays between `0` and the tracking-list length (the lower bound is by
the `Nat` type), never decreases within `process_frame` (a reset —
`reset_state` — is the only operation that lowers it, to `0`), starts at
`0`, and each single crossing event either leaves the index alone or
increments it by exactly one while classifying the event `Correct`. -/
theorem C1_expected_index_invariant :
    (∀ (s s' : Sequencer) (dets : List Detection) (hgt wd t : Int)
        (m : String), s.process_frame dets hgt wd t = some (s', m) →
      s.expected_index ≤ s'.expected_index ∧
        (s.expected_index ≤ s.tracking_list.length →
          s'.expected_index ≤ s'.tracking_list.length)) ∧
    (∀ (t : Int) (s : Sequencer) (c : String),
      (handle_crossing t s c).expected_index ≠ s.expected_index →
      (handle_crossing t s c).expected_index = s.expected_index + 1 ∧
        (handle_crossing t s c).last_event_type = some "Correct") ∧
    (∀ s : Sequencer, (s.reset_state).expected_index = 0) ∧
    (∀ (l : List String) (tol : Int) (ml : Bool),
      (Sequencer.init l tol ml).expected_index = 0) ∧
    (∀ (s s' : Sequencer) (fs : List FrameInput), run_frames s fs = some s' →
      s.expected_index ≤ s'.expected_index ∧
        (s.expected_index ≤ s.tracking_list.length →
          s'.expected_index ≤ s'.tracking_list.length)) := by
  refine ⟨fun _ _ _ _ _ _ _ hp => process_frame_index hp,
    fun t s c hne => ?_,
    fun _ => rfl, fun _ _ _ => rfl,
    fun s s' fs h => run_frames_index fs s s' h⟩
  rcases handle_crossing_cases t s c with ⟨h1, h2⟩ | ⟨h1, hlt, h2⟩ | ⟨h1, h2⟩
  · exact absurd h1 hne
  · exact ⟨h1, h2⟩
  · exact absurd h1 hne

/-- Witness for C1 at a concrete frame: the initial session over
`["A"]` processes an empty frame (staying in `PREPARING`), and the
index bounds hold there. -/
theorem C1_expected_index_invariant_witness :
    (Sequencer.init ["A"] 10 true).expected_index ≤
        (⟨["A"], 10, true, SequenceState.PREPARING, 0, [], [],
          "Waiting for items: A", none, 0⟩ : Sequencer).expected_index ∧
      ((Sequencer.init ["A"] 10 true).expected_index ≤
          (Sequencer.init ["A"] 10 true).tracking_list.length →
        (⟨["A"], 10, true, SequenceState.PREPARING, 0, [], [],
          "Waiting for items: A", none, 0⟩ : Sequencer).expected_index ≤
          (⟨["A"], 10, true, SequenceState.PREPARING, 0, [], [],
            "Waiting for items: A", none, 0⟩ : Sequencer).tracking_list.length) :=
  C1_expected_index_invariant.1 (Sequencer.init ["A"] 10 true)
    (⟨["A"], 10, true, SequenceState.PREPARING, 0, [], [],
      "Waiting for items: A", none, 0⟩ : Sequencer)
    [] 200 200 0 "Waiting for items: A" (by decide)

/-- C2 (code bug): the claim says `expected_index` is reset to 0 on the
automatic `COMPLETED → PREPARING` re-entry; the code does not reset it
there (source lines 207–209 only transition the state — despite the
transition reason reading "Sequence finished, resetting" — while
`reset_state` is the only place the index returns to 0). Concretely:
the `["A", "B"]` session completes with `expected_index = 2`, and on
the next frame the state auto-transitions to `PREPARING` while
`expected_index` remains `2`, not `0`. -/
theorem C2_completed_reentry_keeps_expected_index :
    ((run_frames (Sequencer.init ["A", "B"] 5 true)
        [⟨[("A", (60, 60, 100, 100)), ("B", (110, 60, 150, 100))], 200, 200, 0⟩,
         ⟨[("A", (15, 60, 60, 100)), ("B", (110, 60, 150, 100))], 200, 200, 1⟩,
         ⟨[("A", (15, 60, 60, 100)), ("B", (15, 110, 60, 150))], 200, 200, 2⟩]).map
        (fun s => (s.current_state, s.expected_index)) =
      some (SequenceState.COMPLETED, 2)) ∧
    ((run_frames (Sequencer.init ["A", "B"] 5 true)
        [⟨[("A", (60, 60, 100, 100)), ("B", (110, 60, 150, 100))], 200, 200, 0⟩,
         ⟨[("A", (15, 60, 60, 100)), ("B", (110, 60, 150, 100))], 200, 200, 1⟩,
         ⟨[("A", (15, 60, 60, 100)), ("B", (15, 110, 60, 150))], 200, 200, 2⟩,
         ⟨[], 200, 200, 3⟩]).map
        (fun s => (s.current_state, s.expected_index)) =
      some (SequenceState.PREPARING, 2)) := ⟨rfl, rfl⟩

/-- C3 counterexample: a box lying inside the region with margin
exactly equal to the tolerance on all four sides (so margin ≥ tolerance
holds everywhere, as the claim's first rule requires for a `false`
result) — the code returns `true`, because its interior guard uses a
strict inequality. -/
theorem C3_margin_equal_tolerance_counterexample :
    is_colliding_with_border 5 (5, 5, 95, 95) (0, 0, 100, 100) = true ∧
    (5 : Int) - 0 ≥ 5 ∧ (100 : Int) - 95 ≥ 5 ∧
    (5 : Int) - 0 ≥ 5 ∧ (100 : Int) - 95 ≥ 5 := by decide

/-- C3 (amended): `is_colliding_with_border` returns `true` exactly
when the box is NOT strictly inside by more than `tolerance` on all
four sides (strictly more, not "margin ≥ tolerance" as the claim says),
AND the boxes have positive overlap on both axes, AND the box is within
`tolerance` of at least one of the region's four edges. In particular
it returns `false` for a fully interior box (margin > tolerance) and
`false` for any disjoint box, however close to an edge line. -/
theorem C3_is_crossing_characterization : ∀ (tol : Int) (ob bb : Box),
    is_colliding_with_border tol ob bb = true ↔
      (¬ inside_with_margin_gt tol ob bb ∧ boxes_overlap ob bb ∧
        within_tolerance_of_edge tol ob bb) := by
  intro tol ob bb
  obtain ⟨x1, y1, x2, y2⟩ := ob
  obtain ⟨bx1, by1, bx2, by2⟩ := bb
  simp only [is_colliding_with_border, inside_with_margin_gt, boxes_overlap,
    within_tolerance_of_edge]
  constructor
  · intro h
    split at h
    · exact absurd h (by simp)
    · next hin =>
      split at h
      · exact absurd h (by simp)
      · next hov =>
        simp only [Bool.and_eq_true, decide_eq_true_eq, not_and, not_lt] at hin
        simp only [Bool.not_eq_eq_eq_not, Bool.not_true, Bool.and_eq_false_iff,
          decide_eq_false_iff_not, not_lt] at hov
        simp only [Bool.or_eq_true, decide_eq_true_eq] at h
        refine ⟨?_, ⟨?_, ?_⟩, ?_⟩
        · intro hcontra
          obtain ⟨h1, h2, h3, h4⟩ := hcontra
          omega
        · omega
        · omega
        · omega
  · rintro ⟨hni, ⟨hb1, hb2⟩, ht⟩
    split
    · next hin =>
      simp only [Bool.and_eq_true, decide_eq_true_eq] at hin
      exact absurd ⟨hin.1.1.1, hin.1.1.2, hin.1.2, hin.2⟩ hni
    · next hin =>
      split
      · next hov2 =>
        simp only [Bool.not_eq_eq_eq_not, Bool.not_true, Bool.and_eq_false_iff,
          decide_eq_false_iff_not, not_lt] at hov2
        rcases hov2 with h | h <;> omega
      · simp only [Bool.or_eq_true, decide_eq_true_eq]
        omega

/-- C4: a crossing event for a label fires exactly on the frame where
the label enters the border set: (1) a label on the border now and not
on the previous frame is in `new_crossings`; (2) a label already on the
border on the previous frame is never in `new_crossings`; (3) after a
successful `process_frame` with a loaded model, the retained previous
border set is exactly this frame's border set, so continued presence
never re-fires and the label must fully leave the set before it can
fire again; (4) a frame whose entire border set was already on the
border last frame produces no event and leaves `expected_index`
unchanged, for any number of consecutive such frames. -/
theorem C4_debounce_single_event :
    (∀ (prev curr : List String) (c : String), c ∈ curr → c ∉ prev →
      c ∈ new_crossings prev curr) ∧
    (∀ (prev curr : List String) (c : String), c ∈ prev →
      c ∉ new_crossings prev curr) ∧
    (∀ (s s' : Sequencer) (dets : List Detection) (hgt wd t : Int)
        (m : String), s.model_loaded = true →
      s.process_frame dets hgt wd t = some (s', m) →
      s'.classes_on_border_prev =
        classes_on_border_curr s.tolerance (detect_box_xyxy hgt wd) dets) ∧
    (∀ (s s' : Sequencer) (dets : List Detection) (hgt wd t : Int)
        (m : String),
      (∀ x ∈ classes_on_border_curr s.tolerance (detect_box_xyxy hgt wd) dets,
        x ∈ s.classes_on_border_prev) →
      s.process_frame dets hgt wd t = some (s', m) →
      s'.last_event_type = none ∧ s'.expected_index = s.expected_index) :=
  ⟨fun _ _ _ hc hp => mem_new_crossings.mpr ⟨hc, hp⟩,
   fun _ _ _ hp hmem => (mem_new_crossings.mp hmem).2 hp,
   fun _ _ _ _ _ _ _ hm hp => process_frame_prev hm hp,
   fun _ _ _ _ _ _ _ hsub hp => process_frame_debounce hsub hp⟩

/-- Witness for C4 at a concrete frame: a tracking session that already
recorded "A" on the border processes another frame with "A" still on
the border; no event fires and the index stays at 1. -/
theorem C4_debounce_single_event_witness :
    (⟨["A", "B"], 5, true, SequenceState.TRACKING, 1, ["A"], ["A"], "m",
        none, 0⟩ : Sequencer).last_event_type = none ∧
      (⟨["A", "B"], 5, true, SequenceState.TRACKING, 1, ["A"], ["A"], "m",
        none, 0⟩ : Sequencer).expected_index =
        (⟨["A", "B"], 5, true, SequenceState.TRACKING, 1, ["A"], ["A", "B"],
          "m", some "Correct", 0⟩ : Sequencer).expected_index :=
  C4_debounce_single_event.2.2.2
    (⟨["A", "B"], 5, true, SequenceState.TRACKING, 1, ["A"], ["A", "B"], "m",
      some "Correct", 0⟩ : Sequencer)
    (⟨["A", "B"], 5, true, SequenceState.TRACKING, 1, ["A"], ["A"], "m",
      none, 0⟩ : Sequencer)
    [("A", (15, 60, 60, 100))] 200 200 3 "Progress: 1/2 | Next: B"
    (by decide) (by decide)

/-- C5: (1) in state `IDLE` with `expected_index = 0`, a label other
than the first expected one newly entering the border set is classified
`Wrong`, the state becomes `VALIDATING` and the validation clock is set
to the frame's timestamp; (2) the state stays `VALIDATING` on any frame
with no new crossings whose timestamp is within
`VALIDATION_DISPLAY_DURATION` of the trigger; (3) on the first frame
past the duration the state reverts to `IDLE` when `expected_index = 0`
(to `TRACKING` when it is positive). -/
theorem C5_wrong_item_validating_window :
    (∀ (s : Sequencer) (dets : List Detection) (hgt wd t : Int)
        (c first : String) (rest : List String),
      s.model_loaded = true → s.current_state = SequenceState.IDLE →
      s.expected_index = 0 → s.tracking_list = first :: rest → c ≠ first →
      new_crossings s.classes_on_border_prev
        (classes_on_border_curr s.tolerance (detect_box_xyxy hgt wd) dets) =
          [c] →
      (s.process_frame dets hgt wd t).map
          (fun p => (p.1.current_state, p.1.last_event_type,
            p.1.validation_start_time)) =
        some (SequenceState.VALIDATING, some "Wrong", t)) ∧
    (∀ (s : Sequencer) (dets : List Detection) (hgt wd t : Int),
      s.model_loaded = true → s.current_state = SequenceState.VALIDATING →
      (∀ x ∈ classes_on_border_curr s.tolerance (detect_box_xyxy hgt wd) dets,
        x ∈ s.classes_on_border_prev) →
      t - s.validation_start_time ≤ VALIDATION_DISPLAY_DURATION →
      (s.process_frame dets hgt wd t).map (fun p => p.1.current_state) =
        some SequenceState.VALIDATING) ∧
    (∀ (s : Sequencer) (dets : List Detection) (hgt wd t : Int),
      s.model_loaded = true → s.current_state = SequenceState.VALIDATING →
      (∀ x ∈ classes_on_border_curr s.tolerance (detect_box_xyxy hgt wd) dets,
        x ∈ s.classes_on_border_prev) →
      t - s.validation_start_time > VALIDATION_DISPLAY_DURATION →
      s.expected_index < s.tracking_list.length →
      (s.process_frame dets hgt wd t).map (fun p => p.1.current_state) =
        some (if 0 < s.expected_index then SequenceState.TRACKING
              else SequenceState.IDLE)) := by
  refine ⟨?_, ?_, ?_⟩
  · intro s dets hgt wd t c first rest hm hst he hl hc hnc
    simp [Sequencer.process_frame, dispatch_state, handle_crossing,
      finish_frame, get_display_message, VALIDATION_DISPLAY_DURATION, hm, hst,
      he, hl, hc, hnc]
  · intro s dets hgt wd t hm hst hsub htime
    have hnil : new_crossings s.classes_on_border_prev
        (classes_on_border_curr s.tolerance (detect_box_xyxy hgt wd) dets) = [] :=
      new_crossings_eq_nil hsub
    have hcond : ¬ (t - s.validation_start_time > VALIDATION_DISPLAY_DURATION) :=
      not_lt.mpr htime
    simp [Sequencer.process_frame, dispatch_state, finish_frame,
      get_display_message, hm, hst, hnil, hcond]
  · intro s dets hgt wd t hm hst hsub htime hlen
    have hnil : new_crossings s.classes_on_border_prev
        (classes_on_border_curr s.tolerance (detect_box_xyxy hgt wd) dets) = [] :=
      new_crossings_eq_nil hsub
    by_cases hpos : 0 < s.expected_index
    · have hnext : s.tracking_list[s.expected_index]? =
          some s.tracking_list[s.expected_index] := List.getElem?_eq_getElem hlen
      simp [Sequencer.process_frame, dispatch_state, finish_frame,
        get_display_message, hm, hst, hnil, htime, hpos, hnext]
    · cases hl2 : s.tracking_list with
      | nil => rw [hl2] at hlen; simp at hlen
      | cons f r =>
        simp [Sequencer.process_frame, dispatch_state, finish_frame,
          get_display_message, hm, hst, hnil, htime, hpos, hl2]

/-- Witness for C5 on a concrete `["A", "B"]` session: "B" enters the
border first at time 1 (Wrong, `VALIDATING`, clock 1), the state holds
at time 3 (within the 3-unit window), and reverts to `IDLE` at time 5
(first probe past the window, index still 0). -/
theorem C5_wrong_item_validating_window_witness :
    ((Sequencer.process_frame
        (⟨["A", "B"], 5, true, SequenceState.IDLE, 0, [], [], "r", none, 0⟩ :
          Sequencer) [("B", (15, 110, 60, 150))] 200 200 1).map
        (fun p => (p.1.current_state, p.1.last_event_type,
          p.1.validation_start_time)) =
      some (SequenceState.VALIDATING, some "Wrong", 1)) ∧
    ((Sequencer.process_frame
        (⟨["A", "B"], 5, true, SequenceState.VALIDATING, 0, ["B"], ["A", "B"],
          "w", none, 1⟩ : Sequencer) [("B", (15, 110, 60, 150))] 200 200 3).map
        (fun p => p.1.current_state) = some SequenceState.VALIDATING) ∧
    ((Sequencer.process_frame
        (⟨["A", "B"], 5, true, SequenceState.VALIDATING, 0, ["B"], ["A", "B"],
          "w", none, 1⟩ : Sequencer) [("B", (15, 110, 60, 150))] 200 200 5).map
        (fun p => p.1.current_state) =
      some (if 0 <
          (⟨["A", "B"], 5, true, SequenceState.VALIDATING, 0, ["B"],
            ["A", "B"], "w", none, 1⟩ : Sequencer).expected_index then
          SequenceState.TRACKING
        else SequenceState.IDLE)) :=
  ⟨C5_wrong_item_validating_window.1
      (⟨["A", "B"], 5, true, SequenceState.IDLE, 0, [], [], "r", none, 0⟩ :
        Sequencer) [("B", (15, 110, 60, 150))] 200 200 1 "B" "A" ["B"]
      (by decide) (by decide) (by decide) (by decide) (by decide) (by decide),
   C5_wrong_item_validating_window.2.1
      (⟨["A", "B"], 5, true, SequenceState.VALIDATING, 0, ["B"], ["A", "B"],
        "w", none, 1⟩ : Sequencer) [("B", (15, 110, 60, 150))] 200 200 3
      (by decide) (by decide) (by decide) (by decide),
   C5_wrong_item_validating_window.2.2
      (⟨["A", "B"], 5, true, SequenceState.VALIDATING, 0, ["B"], ["A", "B"],
        "w", none, 1⟩ : Sequencer) [("B", (15, 110, 60, 150))] 200 200 5
      (by decide) (by decide) (by decide) (by decide) (by decide)⟩

/-- C6: for `trackingSequence = ["A", "B"]` with tolerance 5, past
`PREPARING`: the frame where "A" enters the border set classifies
`Correct` (state `TRACKING`, index 1), the next frame where "B" enters
classifies `Correct` and leaves the state `COMPLETED`, and the frame
after that transitions to `PREPARING`; moreover from `COMPLETED` the
next processed frame transitions to `PREPARING` unconditionally, for
every frame content. -/
theorem C6_two_item_sequence_completion :
    ((run_frames (Sequencer.init ["A", "B"] 5 true)
        [⟨[("A", (60, 60, 100, 100)), ("B", (110, 60, 150, 100))], 200, 200, 0⟩,
         ⟨[("A", (15, 60, 60, 100)), ("B", (110, 60, 150, 100))], 200, 200, 1⟩]).map
        (fun s => (s.last_event_type, s.current_state, s.expected_index)) =
      some (some "Correct", SequenceState.TRACKING, 1)) ∧
    ((run_frames (Sequencer.init ["A", "B"] 5 true)
        [⟨[("A", (60, 60, 100, 100)), ("B", (110, 60, 150, 100))], 200, 200, 0⟩,
         ⟨[("A", (15, 60, 60, 100)), ("B", (110, 60, 150, 100))], 200, 200, 1⟩,
         ⟨[("A", (15, 60, 60, 100)), ("B", (15, 110, 60, 150))], 200, 200, 2⟩]).map
        (fun s => (s.last_event_type, s.current_state)) =
      some (some "Correct", SequenceState.COMPLETED)) ∧
    ((run_frames (Sequencer.init ["A", "B"] 5 true)
        [⟨[("A", (60, 60, 100, 100)), ("B", (110, 60, 150, 100))], 200, 200, 0⟩,
         ⟨[("A", (15, 60, 60, 100)), ("B", (110, 60, 150, 100))], 200, 200, 1⟩,
         ⟨[("A", (15, 60, 60, 100)), ("B", (15, 110, 60, 150))], 200, 200, 2⟩,
         ⟨[], 200, 200, 3⟩]).map (fun s => s.current_state) =
      some SequenceState.PREPARING) ∧
    (∀ (s : Sequencer) (dets : List Detection) (hgt wd t : Int),
      s.model_loaded = true → s.current_state = SequenceState.COMPLETED →
      (s.process_frame dets hgt wd t).map (fun p => p.1.current_state) =
        some SequenceState.PREPARING) :=
  ⟨rfl, rfl, rfl, fun _ _ _ _ _ hm hst => completed_to_preparing hm hst⟩

/-- Witness for C6's universally quantified part: a concrete completed
session processes an arbitrary concrete frame and lands in
`PREPARING`. -/
theorem C6_two_item_sequence_completion_witness :
    (Sequencer.process_frame
        (⟨["A", "B"], 5, true, SequenceState.COMPLETED, 2, ["A", "B"],
          ["A", "B"], "d", some "Correct", 0⟩ : Sequencer) [] 200 200 3).map
        (fun p => p.1.current_state) = some SequenceState.PREPARING :=
  C6_two_item_sequence_completion.2.2.2
    (⟨["A", "B"], 5, true, SequenceState.COMPLETED, 2, ["A", "B"], ["A", "B"],
      "d", some "Correct", 0⟩ : Sequencer) [] 200 200 3 (by decide) (by decide)

/-- C7: `reset_state` from any state sets `expected_index` to 0, clears
the retained previous border set, sets the event type to `Reset`, and
transitions to `PREPARING`. -/
theorem C7_manual_reset : ∀ s : Sequencer,
    (s.reset_state).expected_index = 0 ∧
    (s.reset_state).classes_on_border_prev = [] ∧
    (s.reset_state).last_event_type = some "Reset" ∧
    (s.reset_state).current_state = SequenceState.PREPARING :=
  fun _ => ⟨rfl, rfl, rfl, rfl⟩

/-- C8 counterexample: the spec-side constructor rejects the empty
tracking sequence, but the source constructor accepts it and yields the
ordinary initial session state — no configuration error exists at
construction time. -/
theorem C8_empty_sequence_counterexample :
    construct_session_spec [] 10 true = none ∧
    Sequencer.init [] 10 true =
      { tracking_list := [], tolerance := 10, model_loaded := true,
        current_state := SequenceState.PREPARING, expected_index := 0,
        classes_on_border_prev := [], classes_in_frame := [],
        message := "Initializing...", last_event_type := none,
        validation_start_time := 0 } := ⟨rfl, rfl⟩

/-- C8 (amended): constructing a session with an empty tracking
sequence is silently accepted — the constructor performs no validation
and returns the normal initial state — and the misconfiguration
surfaces only at the first `process_frame` call, which fails (the
`PREPARING` readiness check passes vacuously and formatting the ready
message indexes `tracking_list[0]`, an `IndexError`). -/
theorem C8_empty_sequence_accepted : ∀ (tol : Int) (ml : Bool)
    (dets : List Detection) (hgt wd t : Int),
    (Sequencer.init [] tol ml).current_state = SequenceState.PREPARING ∧
    (Sequencer.init [] tol ml).expected_index = 0 ∧
    (Sequencer.init [] tol ml).last_event_type = none ∧
    (Sequencer.init [] tol true).process_frame dets hgt wd t = none :=
  fun _ _ _ _ _ _ => ⟨rfl, rfl, rfl, rfl⟩

/-- C9 counterexample: two runs given identical per-frame detection
inputs differ in their outcome because `process_frame` reads the clock
internally (`time.time()`, modelled by the time component): with the
same three frames of detections, an internal clock reading of 2 leaves
the session `VALIDATING` while a reading of 5 moves it to `IDLE`. -/
theorem C9_internal_clock_counterexample :
    ((run_frames (Sequencer.init ["A", "B"] 5 true)
        [⟨[("A", (60, 60, 100, 100)), ("B", (110, 60, 150, 100))], 200, 200, 0⟩,
         ⟨[("A", (60, 60, 100, 100)), ("B", (15, 110, 60, 150))], 200, 200, 1⟩,
         ⟨[("A", (60, 60, 100, 100)), ("B", (15, 110, 60, 150))], 200, 200, 2⟩]).map
        (fun s => s.current_state) =
      some SequenceState.VALIDATING) ∧
    ((run_frames (Sequencer.init ["A", "B"] 5 true)
        [⟨[("A", (60, 60, 100, 100)), ("B", (110, 60, 150, 100))], 200, 200, 0⟩,
         ⟨[("A", (60, 60, 100, 100)), ("B", (15, 110, 60, 150))], 200, 200, 1⟩,
         ⟨[("A", (60, 60, 100, 100)), ("B", (15, 110, 60, 150))], 200, 200, 5⟩]).map
        (fun s => s.current_state) =
      some SequenceState.IDLE) := ⟨rfl, rfl⟩

/-- C9 (amended): `process_frame` is deterministic as a function of the
session state, the per-frame detections, and the internally read
timestamps: two runs from the same state over equal frame-input lists
(equal detections, dimensions, and clock readings) produce equal
results. -/
theorem C9_determinism_given_clock : ∀ (s : Sequencer)
    (ins ins' : List FrameInput), ins = ins' →
    run_frames s ins = run_frames s ins' :=
  fun _ _ _ h => h ▸ rfl

/-- Witness for C9's determinism statement at a concrete run. -/
theorem C9_determinism_given_clock_witness :
    run_frames (Sequencer.init ["A"] 10 true)
        [⟨[("A", (15, 60, 60, 100))], 200, 200, 0⟩] =
      run_frames (Sequencer.init ["A"] 10 true)
        [⟨[("A", (15, 60, 60, 100))], 200, 200, 0⟩] :=
  C9_determinism_given_clock (Sequencer.init ["A"] 10 true)
    [⟨[("A", (15, 60, 60, 100))], 200, 200, 0⟩]
    [⟨[("A", (15, 60, 60, 100))], 200, 200, 0⟩] rfl

/-- C10: (1) `process_frame` clears `last_event_type` before any
processing — its entire result is independent of the incoming value,
so a `Reset` left by `reset_state` is observable only until the next
call; (2) after any successful call the event type is `none`,
`Correct`, or `Wrong` (never `Reset` — only a classification made
during that same call); (3) `reset_state` is what sets `Reset`. -/
theorem C10_last_event_type_per_call :
    (∀ (s : Sequencer) (x : Option String) (dets : List Detection)
        (hgt wd t : Int),
      ({ s with last_event_type := x } : Sequencer).process_frame dets hgt wd t =
        s.process_frame dets hgt wd t) ∧
    (∀ (s s' : Sequencer) (dets : List Detection) (hgt wd t : Int)
        (m : String), s.process_frame dets hgt wd t = some (s', m) →
      s'.last_event_type = none ∨ s'.last_event_type = some "Correct" ∨
        s'.last_event_type = some "Wrong") ∧
    (∀ s : Sequencer, (s.reset_state).last_event_type = some "Reset") :=
  ⟨fun _ _ _ _ _ _ => rfl,
   fun _ _ _ _ _ _ _ hp => process_frame_event hp,
   fun _ => rfl⟩

/-- Witness for C10: processing a frame right after a manual reset (the
session still carries `Reset`) yields an event type that is again
`none`/`Correct`/`Wrong`, not the stale `Reset`. -/
theorem C10_last_event_type_per_call_witness :
    (⟨["A"], 10, true, SequenceState.PREPARING, 0, [], [],
        "Waiting for items: A", none, 0⟩ : Sequencer).last_event_type = none ∨
      (⟨["A"], 10, true, SequenceState.PREPARING, 0, [], [],
        "Waiting for items: A", none, 0⟩ : Sequencer).last_event_type =
        some "Correct" ∨
      (⟨["A"], 10, true, SequenceState.PREPARING, 0, [], [],
        "Waiting for items: A", none, 0⟩ : Sequencer).last_event_type =
        some "Wrong" :=
  C10_last_event_type_per_call.2.1
    ((Sequencer.init ["A"] 10 true).reset_state)
    (⟨["A"], 10, true, SequenceState.PREPARING, 0, [], [],
      "Waiting for items: A", none, 0⟩ : Sequencer)
    [] 200 200 0 "Waiting for items: A" (by decide)

end ImageMedkitSeq
